import Mathlib

/-!
Shallow embedding of `src/server.js` (Backend-Assignment): a minimal
user-management HTTP service built on Express, Mongoose, Joi, bcryptjs and
jsonwebtoken.

Modelling choices:
* The Mongo collection of users is a `List User`; Mongo's generated `_id`
  is a `Nat` supplied to `createHandler` by the caller (`nextId`).
* bcrypt is an external library; it is modelled as a salted injective
  encoding: `bcryptHash salt pw` prepends a non-empty tag containing the
  salt, and `bcryptCompare pw h` checks that `h` ends with the plaintext,
  mirroring "hash embeds the salt, verification recomputes and compares".
  The salt is threaded as an explicit parameter (a fresh salt per call).
* jsonwebtoken is external; a signed token is modelled by its decoded claim
  set `JwtClaims` (`userId`, `role`, `exp`).  `expiresIn: "1h"` becomes
  `exp = now + 3600`.
* Each Express handler becomes a pure function from the request data plus
  the store state to an HTTP response (status, body) and the new store
  state.  Store operations that can throw (`save`, `findByIdAndUpdate`,
  `findByIdAndDelete`, `find`, `findById`, `findOne` inside try/catch)
  take a `Bool` success flag; `false` selects the `catch` branch.
* The JSON request body is `ReqBody`: the four schema fields as
  `Option String` (absent = `none`) plus `extra`, the list of unknown keys
  (Joi rejects unknown keys by default).
-/

/-- A persisted user record (`{id, name, email, password (hash), role}`). -/
structure User where
  id : Nat
  name : String
  email : String
  password : String
  role : Option String
deriving Repr, DecidableEq

abbrev Db := List User

/-- A JSON request body as seen by the handlers: the schema's four fields,
plus the names of any unknown keys present. -/
structure ReqBody where
  name : Option String := none
  email : Option String := none
  password : Option String := none
  role : Option String := none
  extra : List String := []
deriving Repr, DecidableEq

/-- Decoded claim set of a token produced by `jwt.sign({userId, role}, secret,
{expiresIn: "1h"})`. -/
structure JwtClaims where
  userId : Nat
  role : Option String
  exp : Nat
deriving Repr, DecidableEq

/-- Response bodies sent by the handlers. -/
inductive RespBody where
  | msg (s : String)
  | user (u : User)
  | users (us : List User)
  | token (t : JwtClaims)
deriving Repr, DecidableEq

/-- An HTTP response: status code and body. -/
abbrev Resp := Nat × RespBody

/-- Model of `jwt.sign({ userId: user._id, role: user.role }, secret,
{ expiresIn: "1h" })`: the claim set with expiry one hour from issuance. -/
def jwtSign (userId : Nat) (role : Option String) (now : Nat) : JwtClaims :=
  ⟨userId, role, now + 3600⟩

/-- Salt-dependent tag prepended by the bcrypt model; always non-empty and
injective in the salt. -/
def bcryptTag (salt : Nat) : String :=
  "$2b$10$" ++ String.mk (List.replicate salt '.') ++ "$"

/-- Model of `bcrypt.hash(pw, 10)`: prepend the salted tag to the plaintext
(injective, salt-dependent, never equal to the plaintext). -/
def bcryptHash (salt : Nat) (pw : String) : String :=
  bcryptTag salt ++ pw

/-- Model of `bcrypt.compare(pw, h)`: `h` is strictly longer than `pw` and
ends with `pw`. -/
def bcryptCompare (pw h : String) : Bool :=
  decide (pw.data.length < h.data.length)
    && (h.data.drop (h.data.length - pw.data.length) == pw.data)

/-- Rough model of Joi's `Joi.string().email()` well-formedness check:
exactly one `@`, non-empty local part, domain containing a dot with
non-empty first and last labels. -/
def isValidEmail (s : String) : Bool :=
  let cs := s.data
  let lp := cs.takeWhile (fun c => c ≠ '@')
  let dom := (cs.dropWhile (fun c => c ≠ '@')).drop 1
  decide (cs.count '@' = 1) && !lp.isEmpty &&
    decide (1 ≤ dom.count '.') &&
    !(dom.takeWhile (fun c => c ≠ '.')).isEmpty &&
    !(dom.reverse.takeWhile (fun c => c ≠ '.')).isEmpty

/-- Joi's default rejection of unknown keys: first unknown key, if any. -/
def joiUnknownKeys (b : ReqBody) : Option String :=
  match b.extra with
  | [] => none
  | k :: _ => some ("\"" ++ k ++ "\" is not allowed")

/-- `userValidationSchema.validate(req.body)` (Joi, `abortEarly` default):
`name` required, `email` required and well-formed, `password` required,
`role` optional but restricted to `admin`/`user`, no unknown keys.
Returns `none` for a valid body, `some message` for the first error. -/
def userValidationSchema (b : ReqBody) : Option String :=
  match b.name with
  | none => some "\"name\" is required"
  | some n =>
    if n.data.isEmpty then some "\"name\" is not allowed to be empty"
    else
      match b.email with
      | none => some "\"email\" is required"
      | some e =>
        if e.data.isEmpty then some "\"email\" is not allowed to be empty"
        else if !isValidEmail e then some "\"email\" must be a valid email"
        else
          match b.password with
          | none => some "\"password\" is required"
          | some p =>
            if p.data.isEmpty then some "\"password\" is not allowed to be empty"
            else
              match b.role with
              | some r =>
                  if r == "admin" || r == "user" then joiUnknownKeys b
                  else some "\"role\" must be one of [admin, user]"
              | none => joiUnknownKeys b

/-- `checkRole(role)` middleware: the role read from the request body must
equal the required role, else the request is rejected with 403.
Returns `true` when the request may proceed. -/
def checkRole (role : String) (b : ReqBody) : Bool :=
  b.role == some role

/-- `User.findOne({ email })`. -/
def findOneByEmail (db : Db) (e : String) : Option User :=
  db.find? (fun u => u.email == e)

/-- `User.findById(id)`. -/
def findById (db : Db) (i : Nat) : Option User :=
  db.find? (fun u => u.id == i)

/-- Apply an update document (the validated body) to a stored record:
Mongo `$set`s the provided fields; `_id` is not part of the document. -/
def applyUpdate (u : User) (b : ReqBody) : User :=
  { u with
    name := b.name.getD u.name
    email := b.email.getD u.email
    password := b.password.getD u.password
    role := match b.role with | some r => some r | none => u.role }

/-- `User.findByIdAndUpdate(id, body, { new: true })`: update the record
with the given `_id` (at most one exists in Mongo) and return the updated
document, or `none` when no record matches. -/
def findByIdAndUpdate (db : Db) (i : Nat) (b : ReqBody) : Option User × Db :=
  match db with
  | [] => (none, [])
  | u :: rest =>
    if u.id == i then (some (applyUpdate u b), applyUpdate u b :: rest)
    else
      let r := findByIdAndUpdate rest i b
      (r.1, u :: r.2)

/-- `User.findByIdAndDelete(id)`: remove the record with the given `_id`. -/
def eraseById : Db → Nat → Db
  | [], _ => []
  | u :: rest, i => if u.id == i then rest else u :: eraseById rest i

/-- `POST /create` (server.js:50-74): `checkRole("admin")`, Joi validation,
duplicate-email check, bcrypt hash, `user.save()` (a save failure is caught
and mapped to 400 "Error saving user."). -/
def createHandler (db : Db) (nextId salt : Nat) (saveOk : Bool)
    (b : ReqBody) : Resp × Db :=
  if !(checkRole "admin" b) then ((403, .msg "Access denied."), db)
  else
    match userValidationSchema b with
    | some e => ((400, .msg e), db)
    | none =>
      match findOneByEmail db (b.email.getD "") with
      | some _ => ((400, .msg "User already exists."), db)
      | none =>
        let hashed := bcryptHash salt (b.password.getD "")
        let u : User := ⟨nextId, b.name.getD "", b.email.getD "", hashed, b.role⟩
        if saveOk then ((201, .user u), db ++ [u])
        else ((400, .msg "Error saving user."), db)

/-- `GET /all` (server.js:77-84). -/
def getAllHandler (db : Db) (ok : Bool) : Resp :=
  if ok then (200, .users db) else (500, .msg "Error retrieving users.")

/-- `GET /byId/:id` (server.js:87-97): a thrown store error maps to 500,
a missing record to 404. -/
def getByIdHandler (db : Db) (i : Nat) (ok : Bool) : Resp :=
  if !ok then (500, .msg "Error retrieving user.")
  else
    match findById db i with
    | none => (404, .msg "User not found.")
    | some u => (200, .user u)

/-- Lines 106-109 of the update handler: `if (req.body.password)
req.body.password = await bcrypt.hash(req.body.password, 10)` (JS
truthiness: present and non-empty). -/
def rehashPassword (salt : Nat) (b : ReqBody) : ReqBody :=
  match b.password with
  | some p =>
      if p.data.isEmpty then b else { b with password := some (bcryptHash salt p) }
  | none => b

/-- `PUT /update/:id` (server.js:100-120): `checkRole("admin")`, Joi
validation, conditional re-hash of `body.password`, then `findByIdAndUpdate`
inside try/catch (a thrown store error maps to 500 "Error updating user."). -/
def updateHandler (db : Db) (salt i : Nat) (ok : Bool)
    (b : ReqBody) : Resp × Db :=
  if !(checkRole "admin" b) then ((403, .msg "Access denied."), db)
  else
    match userValidationSchema b with
    | some e => ((400, .msg e), db)
    | none =>
      if !ok then ((500, .msg "Error updating user."), db)
      else
        match findByIdAndUpdate db i (rehashPassword salt b) with
        | (none, _) => ((404, .msg "User not found."), db)
        | (some u, db') => ((200, .user u), db')

/-- `DELETE /delete/:id` (server.js:123-133): `checkRole("admin")`, then
`findByIdAndDelete` inside try/catch (store error → 500, missing → 404). -/
def deleteHandler (db : Db) (i : Nat) (ok : Bool) (b : ReqBody) : Resp × Db :=
  if !(checkRole "admin" b) then ((403, .msg "Access denied."), db)
  else if !ok then ((500, .msg "Error deleting user."), db)
  else
    match findById db i with
    | none => ((404, .msg "User not found."), db)
    | some _ => ((200, .msg "User deleted."), eraseById db i)

/-- `POST /login` (server.js:136-159): find by email (400 "User not
found."), `bcrypt.compare` (400 "Invalid password."), then sign a token;
any thrown error maps to 500. -/
def loginHandler (db : Db) (email pw : String) (now : Nat) (ok : Bool) : Resp :=
  if !ok then (500, .msg "Error logging in.")
  else
    match findOneByEmail db email with
    | none => (400, .msg "User not found.")
    | some u =>
      if bcryptCompare pw u.password then (200, .token (jwtSign u.id u.role now))
      else (400, .msg "Invalid password.")

/-! ## Helper lemmas -/

theorem checkRole_false {b : ReqBody} (h : b.role ≠ some "admin") :
    checkRole "admin" b = false :=
  beq_eq_false_iff_ne.mpr h

theorem checkRole_true {b : ReqBody} (h : b.role = some "admin") :
    checkRole "admin" b = true := by
  simp [checkRole, h]

theorem checkRole_true_iff (b : ReqBody) :
    checkRole "admin" b = true ↔ b.role = some "admin" := by
  simp [checkRole]

theorem bcryptTag_length (salt : Nat) : (bcryptTag salt).data.length = salt + 8 := by
  have h7 : ("$2b$10$" : String).data.length = 7 := by decide
  have h1 : ("$" : String).data.length = 1 := by decide
  simp only [bcryptTag, String.data_append, List.length_append, h7, h1,
    List.length_replicate]
  omega

theorem bcryptHash_data (salt : Nat) (pw : String) :
    (bcryptHash salt pw).data = (bcryptTag salt).data ++ pw.data :=
  String.data_append _ _

theorem bcryptHash_length (salt : Nat) (pw : String) :
    (bcryptHash salt pw).data.length = salt + 8 + pw.data.length := by
  rw [bcryptHash_data, List.length_append, bcryptTag_length]

theorem bcryptHash_ne (salt : Nat) (pw : String) : bcryptHash salt pw ≠ pw := by
  intro h
  have hlen : (bcryptHash salt pw).data.length = pw.data.length := by rw [h]
  rw [bcryptHash_length] at hlen
  omega

theorem bcryptCompare_hash (salt : Nat) (pw : String) :
    bcryptCompare pw (bcryptHash salt pw) = true := by
  have htag : (bcryptTag salt).data.length = salt + 8 := bcryptTag_length salt
  unfold bcryptCompare
  rw [bcryptHash_data, List.length_append, htag]
  have h1 : pw.data.length < salt + 8 + pw.data.length := by omega
  have h2 : salt + 8 + pw.data.length - pw.data.length = (bcryptTag salt).data.length := by
    omega
  rw [h2, List.drop_left]
  simp [h1]

/-! ## Claims -/

/-- C1: for every request to POST /create, PUT /update/:id or
DELETE /delete/:id whose body role is not exactly "admin", the handler
responds 403 "Access denied." and leaves the store untouched, whatever the
rest of the payload. -/
theorem guard_rejects_nonadmin (db : Db) (nextId salt i : Nat) (ok : Bool)
    (b : ReqBody) (hrole : b.role ≠ some "admin") :
    createHandler db nextId salt ok b = ((403, .msg "Access denied."), db) ∧
    updateHandler db salt i ok b = ((403, .msg "Access denied."), db) ∧
    deleteHandler db i ok b = ((403, .msg "Access denied."), db) := by
  have hc : checkRole "admin" b = false := checkRole_false hrole
  exact ⟨by simp [createHandler, hc], by simp [updateHandler, hc],
    by simp [deleteHandler, hc]⟩

theorem guard_rejects_nonadmin_witness :
    (⟨some "Ann", some "a@x.com", some "pw", some "user", []⟩ : ReqBody).role
        ≠ some "admin" ∧
    createHandler [] 1 0 true ⟨some "Ann", some "a@x.com", some "pw", some "user", []⟩
      = ((403, .msg "Access denied."), []) :=
  ⟨by decide,
   (guard_rejects_nonadmin [] 1 0 0 true _ (by decide)).1⟩

/-- C10: the role guard is evaluated before payload validation: a body whose
role is not "admin" draws 403 on create and update even when the payload is
also invalid, so guard denial takes precedence over a validation 400. -/
theorem guard_precedes_validation (db : Db) (nextId salt i : Nat) (ok : Bool)
    (b : ReqBody) (hrole : b.role ≠ some "admin")
    (_hinvalid : userValidationSchema b ≠ none) :
    (createHandler db nextId salt ok b).1 = (403, .msg "Access denied.") ∧
    (updateHandler db salt i ok b).1 = (403, .msg "Access denied.") := by
  have hc : checkRole "admin" b = false := checkRole_false hrole
  exact ⟨by simp [createHandler, hc], by simp [updateHandler, hc]⟩

theorem guard_precedes_validation_witness :
    ((⟨none, none, none, none, []⟩ : ReqBody).role ≠ some "admin" ∧
      userValidationSchema ⟨none, none, none, none, []⟩ ≠ none) ∧
    (createHandler [] 1 0 true ⟨none, none, none, none, []⟩).1
      = (403, .msg "Access denied.") :=
  ⟨⟨by decide, by decide⟩,
   (guard_precedes_validation [] 1 0 0 true _ (by decide) (by decide)).1⟩

/-- C9: every record ever inserted by the create handler carries role
"admin": a user in the store after a create call either was there before or
has role exactly "admin" (the guard forces the body role, and the handler
persists that role). -/
theorem created_users_are_admin (db : Db) (nextId salt : Nat) (ok : Bool)
    (b : ReqBody) (u : User) (hu : u ∈ (createHandler db nextId salt ok b).2) :
    u ∈ db ∨ u.role = some "admin" := by
  by_cases hc : checkRole "admin" b = true
  · have hrole : b.role = some "admin" := (checkRole_true_iff b).mp hc
    unfold createHandler at hu
    rw [hc] at hu
    simp only [Bool.not_true, Bool.false_eq_true, if_false] at hu
    cases hv : userValidationSchema b with
    | some e => rw [hv] at hu; exact Or.inl hu
    | none =>
      rw [hv] at hu
      cases hf : findOneByEmail db (b.email.getD "") with
      | some w => rw [hf] at hu; exact Or.inl hu
      | none =>
        rw [hf] at hu
        cases ok with
        | false => simp at hu; exact Or.inl hu
        | true =>
          simp only [if_true] at hu
          rcases List.mem_append.mp hu with h | h
          · exact Or.inl h
          · right
            rcases List.mem_singleton.mp h with rfl
            simpa using hrole
  · have hc' : checkRole "admin" b = false := by
      cases h : checkRole "admin" b
      · rfl
      · exact absurd h hc
    unfold createHandler at hu
    rw [hc'] at hu
    simp at hu
    exact Or.inl hu

theorem created_users_are_admin_witness :
    (⟨1, "Ann", "a@x.com", bcryptHash 0 "pw", some "admin"⟩ : User)
        ∈ (createHandler [] 1 0 true
            ⟨some "Ann", some "a@x.com", some "pw", some "admin", []⟩).2 ∧
    ((⟨1, "Ann", "a@x.com", bcryptHash 0 "pw", some "admin"⟩ : User) ∈ ([] : Db) ∨
      (⟨1, "Ann", "a@x.com", bcryptHash 0 "pw", some "admin"⟩ : User).role
        = some "admin") :=
  ⟨by decide,
   created_users_are_admin [] 1 0 true
     ⟨some "Ann", some "a@x.com", some "pw", some "admin", []⟩
     ⟨1, "Ann", "a@x.com", bcryptHash 0 "pw", some "admin"⟩ (by decide)⟩

/-- C2 counterexample: with user email "a@x.com" already stored, a second
create for the same email whose body carries role "user" (all other fields
syntactically valid) is answered 403 "Access denied." by the guard, not the
DuplicateEmail 400 "User already exists." that the claim promises for every
payload. -/
theorem duplicate_email_counterexample :
    createHandler [⟨1, "Ann", "a@x.com", "h", some "admin"⟩] 2 0 true
        ⟨some "Bob", some "a@x.com", some "pw", some "user", []⟩
      = ((403, .msg "Access denied."), [⟨1, "Ann", "a@x.com", "h", some "admin"⟩]) ∧
    (createHandler [⟨1, "Ann", "a@x.com", "h", some "admin"⟩] 2 0 true
        ⟨some "Bob", some "a@x.com", some "pw", some "user", []⟩).1
      ≠ (400, .msg "User already exists.") := by
  decide

/-- C2 (amended): once past the guard (body role "admin") and validation, a
create whose email is already present answers 400 "User already exists."
and leaves the store unchanged, whatever the other field values and whether
or not the save would have succeeded. -/
theorem duplicate_email_rejected (db : Db) (nextId salt : Nat) (ok : Bool)
    (b : ReqBody) (u : User)
    (hrole : b.role = some "admin")
    (hvalid : userValidationSchema b = none)
    (hmem : u ∈ db) (hemail : u.email = b.email.getD "") :
    createHandler db nextId salt ok b = ((400, .msg "User already exists."), db) := by
  have hc := checkRole_true hrole
  have hsome : (findOneByEmail db (b.email.getD "")).isSome := by
    rw [findOneByEmail]
    exact List.find?_isSome.mpr ⟨u, hmem, by simp [hemail]⟩
  obtain ⟨w, hw⟩ := Option.isSome_iff_exists.mp hsome
  simp [createHandler, hc, hvalid, hw]

theorem duplicate_email_rejected_witness :
    ((⟨some "Bob", some "a@x.com", some "pw2", some "admin", []⟩ : ReqBody).role
        = some "admin" ∧
      userValidationSchema ⟨some "Bob", some "a@x.com", some "pw2", some "admin", []⟩
        = none ∧
      (⟨1, "Ann", "a@x.com", "h", some "admin"⟩ : User)
        ∈ [(⟨1, "Ann", "a@x.com", "h", some "admin"⟩ : User)]) ∧
    createHandler [⟨1, "Ann", "a@x.com", "h", some "admin"⟩] 2 0 true
        ⟨some "Bob", some "a@x.com", some "pw2", some "admin", []⟩
      = ((400, .msg "User already exists."), [⟨1, "Ann", "a@x.com", "h", some "admin"⟩]) :=
  ⟨⟨rfl, by decide, by decide⟩,
   duplicate_email_rejected [⟨1, "Ann", "a@x.com", "h", some "admin"⟩] 2 0 true
     ⟨some "Bob", some "a@x.com", some "pw2", some "admin", []⟩
     ⟨1, "Ann", "a@x.com", "h", some "admin"⟩ rfl (by decide) (by decide) rfl⟩

/-- C3: a create that passes the guard, validation and the duplicate check
persists a user whose password field is the bcrypt hash of the submitted
password: it differs from the plaintext and bcrypt verification of the
plaintext against it succeeds. -/
theorem create_hashes_password (db : Db) (nextId salt : Nat) (b : ReqBody)
    (p : String)
    (hp : b.password = some p)
    (hrole : b.role = some "admin")
    (hvalid : userValidationSchema b = none)
    (hdup : findOneByEmail db (b.email.getD "") = none) :
    ∃ u : User,
      createHandler db nextId salt true b = ((201, .user u), db ++ [u]) ∧
      u.password ≠ p ∧ bcryptCompare p u.password = true := by
  have hc := checkRole_true hrole
  refine ⟨⟨nextId, b.name.getD "", b.email.getD "", bcryptHash salt p, b.role⟩,
    ?_, bcryptHash_ne salt p, bcryptCompare_hash salt p⟩
  simp [createHandler, hc, hvalid, hdup, hp]

theorem create_hashes_password_witness :
    ∃ u : User,
      createHandler [] 1 0 true ⟨some "Ann", some "a@x.com", some "pw1", some "admin", []⟩
        = ((201, .user u), [] ++ [u]) ∧
      u.password ≠ "pw1" ∧ bcryptCompare "pw1" u.password = true :=
  create_hashes_password [] 1 0
    ⟨some "Ann", some "a@x.com", some "pw1", some "admin", []⟩ "pw1"
    rfl rfl (by decide) rfl

/-- C4: login succeeds (200 plus a token) exactly when a user with the given
email exists and bcrypt verification of the password against the stored hash
succeeds; the token's claims are the stored record's id and role with expiry
one hour (3600 s) after issuance; otherwise the response is 400 and carries
no token. -/
theorem login_spec (db : Db) (e pw : String) (now : Nat) :
    (∀ u, findOneByEmail db e = some u → bcryptCompare pw u.password = true →
        loginHandler db e pw now true = (200, .token ⟨u.id, u.role, now + 3600⟩)) ∧
    ((loginHandler db e pw now true).1 = 200 →
        ∃ u, findOneByEmail db e = some u ∧ bcryptCompare pw u.password = true) ∧
    ((¬ ∃ u, findOneByEmail db e = some u ∧ bcryptCompare pw u.password = true) →
        (loginHandler db e pw now true).1 = 400 ∧
        ∀ t, (loginHandler db e pw now true).2 ≠ .token t) := by
  cases hf : findOneByEmail db e with
  | none =>
    refine ⟨?_, ?_, ?_⟩
    · intro u hu; exact absurd hu (by simp)
    · intro h; rw [loginHandler] at h; simp [hf] at h
    · intro _; simp [loginHandler, hf]
  | some u =>
    cases hcmp : bcryptCompare pw u.password with
    | true =>
      refine ⟨?_, ?_, ?_⟩
      · intro u' hu' _
        obtain rfl : u = u' := by injection hu'
        simp [loginHandler, hf, hcmp, jwtSign]
      · intro _; exact ⟨u, rfl, hcmp⟩
      · intro h; exact absurd ⟨u, rfl, hcmp⟩ h
    | false =>
      refine ⟨?_, ?_, ?_⟩
      · intro u' hu' hc'
        obtain rfl : u = u' := by injection hu'
        rw [hcmp] at hc'; exact absurd hc' (by simp)
      · intro h; rw [loginHandler] at h; simp [hf, hcmp] at h
      · intro _; simp [loginHandler, hf, hcmp]

theorem login_spec_witness :
    findOneByEmail [⟨1, "Ann", "a@x.com", bcryptHash 0 "pw1", some "admin"⟩] "a@x.com"
        = some ⟨1, "Ann", "a@x.com", bcryptHash 0 "pw1", some "admin"⟩ ∧
    loginHandler [⟨1, "Ann", "a@x.com", bcryptHash 0 "pw1", some "admin"⟩]
        "a@x.com" "pw1" 5 true
      = (200, .token ⟨1, some "admin", 5 + 3600⟩) :=
  ⟨by decide,
   (login_spec [⟨1, "Ann", "a@x.com", bcryptHash 0 "pw1", some "admin"⟩]
       "a@x.com" "pw1" 5).1
     ⟨1, "Ann", "a@x.com", bcryptHash 0 "pw1", some "admin"⟩ (by decide) (by decide)⟩

/-- C5 counterexample: a syntactically valid admin update whose store write
throws is answered 500 "Error updating user." (the update handler's catch
branch), not the 400 the claim asserts for update-save failures. -/
theorem update_store_error_counterexample :
    updateHandler [⟨1, "Ann", "a@x.com", "h", some "admin"⟩] 0 1 false
        ⟨some "Bo", some "b@x.com", some "pw", some "admin", []⟩
      = ((500, .msg "Error updating user."), [⟨1, "Ann", "a@x.com", "h", some "admin"⟩]) ∧
    (updateHandler [⟨1, "Ann", "a@x.com", "h", some "admin"⟩] 0 1 false
        ⟨some "Bo", some "b@x.com", some "pw", some "admin", []⟩).1.1 ≠ 400 := by
  decide

/-- C5 (amended): for requests past guard and validation, a store-write
failure on update maps to 500 "Error updating user.", while a save failure
on create maps to 400 "Error saving user."; neither mutates the store. -/
theorem store_error_statuses (db : Db) (nextId salt i : Nat) (b : ReqBody)
    (hrole : b.role = some "admin")
    (hvalid : userValidationSchema b = none) :
    updateHandler db salt i false b = ((500, .msg "Error updating user."), db) ∧
    (findOneByEmail db (b.email.getD "") = none →
      createHandler db nextId salt false b = ((400, .msg "Error saving user."), db)) := by
  have hc := checkRole_true hrole
  constructor
  · simp [updateHandler, hc, hvalid]
  · intro hdup; simp [createHandler, hc, hvalid, hdup]

theorem store_error_statuses_witness :
    ((⟨some "Bo", some "b@x.com", some "pw", some "admin", []⟩ : ReqBody).role
        = some "admin" ∧
      userValidationSchema ⟨some "Bo", some "b@x.com", some "pw", some "admin", []⟩
        = none) ∧
    updateHandler [] 0 1 false ⟨some "Bo", some "b@x.com", some "pw", some "admin", []⟩
      = ((500, .msg "Error updating user."), []) :=
  ⟨⟨rfl, by decide⟩,
   (store_error_statuses [] 2 0 1
     ⟨some "Bo", some "b@x.com", some "pw", some "admin", []⟩ rfl (by decide)).1⟩

theorem userValidationSchema_none_required {b : ReqBody}
    (h : userValidationSchema b = none) :
    b.name ≠ none ∧ b.email ≠ none ∧ b.password ≠ none := by
  rcases hn : b.name with _ | n
  · simp [userValidationSchema, hn] at h
  rcases he : b.email with _ | e
  · by_cases hne : n.data.isEmpty <;> simp [userValidationSchema, hn, he, hne] at h
  rcases hp : b.password with _ | p
  · by_cases hne : n.data.isEmpty
    · simp [userValidationSchema, hn, hne] at h
    · by_cases hee : e.data.isEmpty
      · simp [userValidationSchema, hn, he, hne, hee] at h
      · by_cases hev : isValidEmail e <;>
          simp [userValidationSchema, hn, he, hp, hne, hee, hev] at h
  · simp [hn, he, hp]

/-- C6 counterexample: a PUT /update/:id body supplying only role "admin"
(name, email, password omitted) is rejected with the validation error 400
'"name" is required' and the store is untouched — it is not accepted as a
partial update. -/
theorem update_partial_body_counterexample :
    updateHandler [⟨1, "Ann", "a@x.com", "h", some "admin"⟩] 0 1 true
        ⟨none, none, none, some "admin", []⟩
      = ((400, .msg "\"name\" is required"),
         [⟨1, "Ann", "a@x.com", "h", some "admin"⟩]) := by
  decide

/-- C6 (amended): the update endpoint requires the full payload: any body
passing the guard but omitting name, email or password is rejected with a
validation 400 and no store mutation; partial updates are not accepted. -/
theorem update_requires_full_body (db : Db) (salt i : Nat) (ok : Bool)
    (b : ReqBody)
    (hrole : b.role = some "admin")
    (hmiss : b.name = none ∨ b.email = none ∨ b.password = none) :
    ∃ m, updateHandler db salt i ok b = ((400, .msg m), db) := by
  have hc := checkRole_true hrole
  have hv : userValidationSchema b ≠ none := by
    intro h
    obtain ⟨h1, h2, h3⟩ := userValidationSchema_none_required h
    rcases hmiss with h | h | h
    exacts [h1 h, h2 h, h3 h]
  rcases hx : userValidationSchema b with _ | m
  · exact absurd hx hv
  · exact ⟨m, by simp [updateHandler, hc, hx]⟩

theorem update_requires_full_body_witness :
    ((⟨none, none, none, some "admin", []⟩ : ReqBody).role = some "admin" ∧
      ((⟨none, none, none, some "admin", []⟩ : ReqBody).name = none ∨
        (⟨none, none, none, some "admin", []⟩ : ReqBody).email = none ∨
        (⟨none, none, none, some "admin", []⟩ : ReqBody).password = none)) ∧
    ∃ m, updateHandler [] 0 1 true ⟨none, none, none, some "admin", []⟩
      = ((400, .msg m), []) :=
  ⟨⟨rfl, Or.inl rfl⟩,
   update_requires_full_body [] 0 1 true ⟨none, none, none, some "admin", []⟩
     rfl (Or.inl rfl)⟩

theorem findById_eraseById (db : Db) (i : Nat)
    (hnodup : (db.map User.id).Nodup) :
    findById (eraseById db i) i = none := by
  induction db with
  | nil => rfl
  | cons u rest ih =>
    rw [List.map_cons, List.nodup_cons] at hnodup
    obtain ⟨hni, hnd⟩ := hnodup
    by_cases h : u.id = i
    · have he : eraseById (u :: rest) i = rest := by simp [eraseById, h]
      rw [he, findById, List.find?_eq_none]
      intro x hx hbeq
      have hxi : x.id = i := by simpa using hbeq
      exact hni (List.mem_map.mpr ⟨x, hx, by rw [hxi, h]⟩)
    · have he : eraseById (u :: rest) i = u :: eraseById rest i := by
        simp [eraseById, h]
      rw [he]
      have hb : (u.id == i) = false := by simpa using h
      rw [findById] at ih ⊢
      rw [List.find?_cons, hb]
      exact ih hnd

/-- C7: after a successful admin delete of id `i`, a getById on `i` answers
404 "User not found." (under the store invariant that ids are unique); the
deleted record is never returned. -/
theorem delete_then_getById_404 (db : Db) (i : Nat) (b : ReqBody)
    (hrole : b.role = some "admin")
    (hnodup : (db.map User.id).Nodup) :
    getByIdHandler (deleteHandler db i true b).2 i true
      = (404, .msg "User not found.") := by
  have hc := checkRole_true hrole
  cases hf : findById db i with
  | none =>
    simp [deleteHandler, hc, hf, getByIdHandler]
  | some u =>
    simp [deleteHandler, hc, hf, getByIdHandler, findById_eraseById db i hnodup]

theorem delete_then_getById_404_witness :
    ((⟨none, none, none, some "admin", []⟩ : ReqBody).role = some "admin" ∧
      (([⟨1, "Ann", "a@x.com", "h", some "admin"⟩] : Db).map User.id).Nodup) ∧
    getByIdHandler
        (deleteHandler [⟨1, "Ann", "a@x.com", "h", some "admin"⟩] 1 true
          ⟨none, none, none, some "admin", []⟩).2 1 true
      = (404, .msg "User not found.") :=
  ⟨⟨rfl, by decide⟩,
   delete_then_getById_404 [⟨1, "Ann", "a@x.com", "h", some "admin"⟩] 1
     ⟨none, none, none, some "admin", []⟩ rfl (by decide)⟩

theorem findByIdAndUpdate_map_id (db : Db) (i : Nat) (b : ReqBody) :
    (findByIdAndUpdate db i b).2.map User.id = db.map User.id := by
  induction db with
  | nil => rfl
  | cons u rest ih =>
    by_cases h : (u.id == i) = true
    · simp [findByIdAndUpdate, h, applyUpdate]
    · have hb : (u.id == i) = false := by
        cases hx : u.id == i
        · rfl
        · exact absurd hx h
      simp [findByIdAndUpdate, hb, ih]

theorem eraseById_subset (db : Db) (i : Nat) : ∀ u ∈ eraseById db i, u ∈ db := by
  induction db with
  | nil => intro u hu; rw [eraseById] at hu; simp at hu
  | cons v rest ih =>
    intro u hu
    by_cases h : (v.id == i) = true
    · rw [eraseById, if_pos h] at hu
      exact List.mem_cons_of_mem v hu
    · rw [eraseById, if_neg h] at hu
      rcases List.mem_cons.mp hu with rfl | hu'
      · exact List.mem_cons_self u rest
      · exact List.mem_cons_of_mem v (ih u hu')

/-- C8: no operation changes the id of an existing record: update preserves
the stored id sequence exactly, create only appends a fresh record, and
delete only removes records (every survivor was already stored). -/
theorem user_id_immutable :
    (∀ (db : Db) (salt i : Nat) (ok : Bool) (b : ReqBody),
        (updateHandler db salt i ok b).2.map User.id = db.map User.id) ∧
    (∀ (db : Db) (nextId salt : Nat) (ok : Bool) (b : ReqBody),
        (createHandler db nextId salt ok b).2 = db ∨
          ∃ u, (createHandler db nextId salt ok b).2 = db ++ [u]) ∧
    (∀ (db : Db) (i : Nat) (ok : Bool) (b : ReqBody) (u : User),
        u ∈ (deleteHandler db i ok b).2 → u ∈ db) := by
  refine ⟨?_, ?_, ?_⟩
  · intro db salt i ok b
    by_cases hc : (checkRole "admin" b) = true
    · rcases hv : userValidationSchema b with _ | m
      · cases ok with
        | false => simp [updateHandler, hc, hv]
        | true =>
          rcases hfu : findByIdAndUpdate db i (rehashPassword salt b) with ⟨o, d⟩
          cases o with
          | none => simp [updateHandler, hc, hv, hfu]
          | some w =>
            have hd : d.map User.id = db.map User.id := by
              have hmap := findByIdAndUpdate_map_id db i (rehashPassword salt b)
              rw [hfu] at hmap
              exact hmap
            simp [updateHandler, hc, hv, hfu, hd]
      · simp [updateHandler, hc, hv]
    · have hc' : checkRole "admin" b = false := by
        cases hx : checkRole "admin" b
        · rfl
        · exact absurd hx hc
      simp [updateHandler, hc']
  · intro db nextId salt ok b
    by_cases hc : (checkRole "admin" b) = true
    · rcases hv : userValidationSchema b with _ | m
      · rcases hf : findOneByEmail db (b.email.getD "") with _ | w
        · cases ok with
          | false => left; simp [createHandler, hc, hv, hf]
          | true =>
            right
            refine ⟨⟨nextId, b.name.getD "", b.email.getD "",
              bcryptHash salt (b.password.getD ""), b.role⟩, ?_⟩
            simp [createHandler, hc, hv, hf]
        · left; simp [createHandler, hc, hv, hf]
      · left; simp [createHandler, hc, hv]
    · have hc' : checkRole "admin" b = false := by
        cases hx : checkRole "admin" b
        · rfl
        · exact absurd hx hc
      left; simp [createHandler, hc']
  · intro db i ok b u hu
    by_cases hc : (checkRole "admin" b) = true
    · cases ok with
      | false =>
        rw [deleteHandler] at hu
        simp only [hc, Bool.not_true, Bool.false_eq_true, if_false] at hu
        simpa using hu
      | true =>
        rcases hf : findById db i with _ | w
        · rw [deleteHandler] at hu
          simp only [hc, hf, Bool.not_true, Bool.false_eq_true, if_false,
            Bool.not_false, if_true] at hu
          simpa using hu
        · rw [deleteHandler] at hu
          simp only [hc, hf, Bool.not_true, Bool.false_eq_true, if_false,
            Bool.not_false, if_true] at hu
          exact eraseById_subset db i u hu
    · have hc' : checkRole "admin" b = false := by
        cases hx : checkRole "admin" b
        · rfl
        · exact absurd hx hc
      rw [deleteHandler] at hu
      simp only [hc', Bool.not_false, if_true] at hu
      exact hu

theorem user_id_immutable_witness :
    (updateHandler [⟨1, "Ann", "a@x.com", "h", some "admin"⟩] 0 1 true
        ⟨some "Bo", some "b@x.com", some "pw", some "admin", []⟩).2.map User.id
      = ([⟨1, "Ann", "a@x.com", "h", some "admin"⟩] : Db).map User.id :=
  user_id_immutable.1 [⟨1, "Ann", "a@x.com", "h", some "admin"⟩] 0 1 true
    ⟨some "Bo", some "b@x.com", some "pw", some "admin", []⟩

